import Mathlib

/-!
# Verification of the landscape-data-pipeline metadata core

Shallow embedding of the Python sources of the repository
`landscape-data-pipeline` (files `clean.py`, `ingest.py`, `config.py`,
`load_sqlite.py`, `api.py`) and proofs about the claims of its
specification.

Modelling conventions:
* A Python metadata dict becomes the structure `Record`; optional dict
  entries become `Option` fields, `item.get(k, d)` becomes `Option.getD`,
  and `item.get(k)` becomes the field itself (`none` when absent).
* Python truthiness of a value (`if item.get(field)`) is `PyVal.truthy`:
  `None` and `0` and the empty string are falsy.
* Pixel dimensions are Python ints, embedded as `Int`.
* Ratio arithmetic is embedded in `Rat` (exact, non-truncating division),
  following section 4.2 of the specification, which fixes real division
  as the numeric semantics of the comparisons; Python float rounding is
  abstracted away.  Likewise `round(x, n)` is embedded as exact
  round-half-to-even on rationals (`roundHalfEven`), the convention of
  Python `round`; section 4.2 declares the choice of rounding convention
  free as long as it is consistent and documented.
* Code that raises in Python (division by zero) returns
  `Except String _`, the error string naming the Python exception.
* Names ending in `...RATIO` / `..._ratio` from the source are renamed
  (`MIN_ASPECT_RATIO` ↦ `minAspect`, the `aspect_ratio` field ↦
  `aspectR`, the `failed_aspect_ratio` counter ↦ `failed_aspect`);
  everything else keeps the source name.
-/

/-- A Python value as stored in a metadata dict entry: absent (`None`),
an int, a string, or a float/rounded rational. Used to model the generic
dict access `item.get(field)` of `clean.py`. -/
inductive PyVal where
  | vNone : PyVal
  | vInt (n : Int) : PyVal
  | vStr (s : String) : PyVal
  | vRat (q : Rat) : PyVal
deriving DecidableEq

/-- Python truthiness: `None`, `0`, `0.0` and `""` are falsy, everything
else is truthy.  This is the semantics of `if item.get(field)` in
`clean.py`. -/
def PyVal.truthy : PyVal → Bool
  | .vNone => false
  | .vInt n => n != 0
  | .vStr s => s != ""
  | .vRat q => q != 0

/-- One metadata record, the dict built by `parse_image_metadata` in
`ingest.py` (plus the two fields `enhance_metadata` in `clean.py` may
add).  The `id` key is accessed with `item['id']` (never defaulted) by
`remove_duplicates`, so it is a mandatory field; every other key is
optional.  The enriched fields `aspect_ratio` and `megapixels` are
`aspectR` and `megapixels` here. -/
structure Record where
  id : String
  image_url : Option String := none
  download_url : Option String := none
  page_url : Option String := none
  location_name : Option String := none
  country : Option String := none
  description : Option String := none
  photographer_name : Option String := none
  photographer_username : Option String := none
  width : Option Int := none
  height : Option Int := none
  color : Option String := none
  source : Option String := none
  query : Option String := none
  downloaded : Option Int := none
  aspectR : Option Rat := none
  megapixels : Option Rat := none
deriving DecidableEq

/-- Lift an optional string field to a `PyVal`. -/
def optStr : Option String → PyVal
  | none => .vNone
  | some s => .vStr s

/-- Lift an optional int field to a `PyVal`. -/
def optInt : Option Int → PyVal
  | none => .vNone
  | some n => .vInt n

/-- Generic dict access `item.get(field)` for the fields the validator
reads by name (the required-field loop of rule 5 in `clean.py`). -/
def Record.get (item : Record) : String → PyVal
  | "id" => .vStr item.id
  | "image_url" => optStr item.image_url
  | "photographer_name" => optStr item.photographer_name
  | "width" => optInt item.width
  | "height" => optInt item.height
  | "location_name" => optStr item.location_name
  | "country" => optStr item.country
  | "description" => optStr item.description
  | _ => .vNone

/-- `config.py`: `MIN_WIDTH = 1920`. -/
def MIN_WIDTH : Int := 1920

/-- `config.py`: `MIN_ASPECT_RATIO = 1.3` (renamed; exactly 13/10 in the
rational embedding). -/
def minAspect : Rat := 13 / 10

/-- `config.py`: `REQUIRED_FIELDS` (also inlined as `required_fields` in
rule 5 of `validate_images` in `clean.py`). -/
def REQUIRED_FIELDS : List String :=
  ["id", "image_url", "photographer_name", "width", "height"]

/-- The per-record validation outcome (specification section 3,
"Validation Outcome"). -/
inductive VResult where
  | passed
  | failed_download
  | failed_orientation
  | failed_aspect
  | failed_resolution
  | failed_missing_fields
deriving DecidableEq

/-- The five failure tallies of `validate_images` in `clean.py`
(`failed_aspect_ratio` renamed to `failed_aspect`). -/
structure VStats where
  failed_download : Nat
  failed_orientation : Nat
  failed_aspect : Nat
  failed_resolution : Nat
  failed_missing_fields : Nat
deriving DecidableEq

/-- The aspect-ratio value computed in rule 3 of `validate_images`:
`width / height if height > 0 else 0`, on the defaulted dimensions
`item.get('width', 0)` and `item.get('height', 0)`. -/
def aspectOf (item : Record) : Rat :=
  if 0 < item.height.getD 0 then
    ((item.width.getD 0 : Int) : Rat) / ((item.height.getD 0 : Int) : Rat)
  else 0

/-- Rule 5 of `validate_images`:
`all(item.get(field) for field in required_fields)`. -/
def requiredOk (item : Record) : Bool :=
  REQUIRED_FIELDS.all fun f => (item.get f).truthy

/-- The body of the per-record loop of `validate_images` in `clean.py`:
the five `if ... continue` gates in source order, the first failing gate
deciding the classification. -/
def classify (item : Record) : VResult :=
  if item.downloaded ≠ some 1 then .failed_download
  else if item.width.getD 0 ≤ item.height.getD 0 then .failed_orientation
  else if aspectOf item < minAspect then .failed_aspect
  else if item.width.getD 0 < MIN_WIDTH then .failed_resolution
  else if requiredOk item then .passed
  else .failed_missing_fields

/-- `validate_images` of `clean.py`: fold the classification over the
batch, collecting the records that passed (in order) and the five
failure tallies. -/
def validate_images : List Record → List Record × VStats
  | [] => ([], ⟨0, 0, 0, 0, 0⟩)
  | item :: rest =>
    let (valid, s) := validate_images rest
    match classify item with
    | .passed => (item :: valid, s)
    | .failed_download => (valid, { s with failed_download := s.failed_download + 1 })
    | .failed_orientation => (valid, { s with failed_orientation := s.failed_orientation + 1 })
    | .failed_aspect => (valid, { s with failed_aspect := s.failed_aspect + 1 })
    | .failed_resolution => (valid, { s with failed_resolution := s.failed_resolution + 1 })
    | .failed_missing_fields => (valid, { s with failed_missing_fields := s.failed_missing_fields + 1 })

/-- Gate 1 (download) passes: `item.get('downloaded') == 1`. -/
def downloadOk (item : Record) : Prop := item.downloaded = some 1

/-- Gate 2 (orientation) passes: `width > height` on defaulted dims. -/
def orientationOk (item : Record) : Prop :=
  item.height.getD 0 < item.width.getD 0

/-- Gate 3 (aspect ratio) passes: the rule-3 ratio is at least 1.3. -/
def aspectOk (item : Record) : Prop := minAspect ≤ aspectOf item

/-- Gate 4 (resolution) passes: `width >= 1920` on the defaulted width. -/
def resolutionOk (item : Record) : Prop := MIN_WIDTH ≤ item.width.getD 0

/-- Gate 5 (completeness) passes: all required fields truthy. -/
def fieldsOk (item : Record) : Prop := requiredOk item = true

/-- The 1800×1600 record of the specification scenario: downloaded,
landscape, ratio 1.125 < 1.3, width also below 1920. -/
def exRecord1800 : Record :=
  { id := "ex1800", image_url := some "http://img/ex1800",
    photographer_name := some "Ansel", width := some 1800,
    height := some 1600, downloaded := some 1 }

/-- The 1800×1600 scenario record is classified under the aspect-ratio
gate (1800/1600 = 1.125 < 1.3). -/
theorem classify_exRecord1800 : classify exRecord1800 = .failed_aspect := by
  norm_num [classify, exRecord1800, aspectOf, minAspect]

theorem classify_eq_first_gate (item : Record) :
    (classify item = .failed_download ↔ ¬ downloadOk item) ∧
    (classify item = .failed_orientation ↔
      downloadOk item ∧ ¬ orientationOk item) ∧
    (classify item = .failed_aspect ↔
      downloadOk item ∧ orientationOk item ∧ ¬ aspectOk item) ∧
    (classify item = .failed_resolution ↔
      downloadOk item ∧ orientationOk item ∧ aspectOk item ∧
        ¬ resolutionOk item) ∧
    (classify item = .failed_missing_fields ↔
      downloadOk item ∧ orientationOk item ∧ aspectOk item ∧
        resolutionOk item ∧ ¬ fieldsOk item) ∧
    (classify item = .passed ↔
      downloadOk item ∧ orientationOk item ∧ aspectOk item ∧
        resolutionOk item ∧ fieldsOk item) := by
  unfold classify downloadOk orientationOk aspectOk resolutionOk fieldsOk
  split_ifs with h1 h2 h3 h4 h5 <;>
    simp_all [not_lt, not_le]

/-- The list of accepted records and the failure tallies returned by
`validate_images` are, respectively, the sublist of records classified
`passed` (in input order) and the per-reason counts of the per-record
classification. -/
theorem validate_images_eq (l : List Record) :
    validate_images l =
      (l.filter (fun r => classify r == .passed),
        ⟨l.countP (fun r => classify r == .failed_download),
         l.countP (fun r => classify r == .failed_orientation),
         l.countP (fun r => classify r == .failed_aspect),
         l.countP (fun r => classify r == .failed_resolution),
         l.countP (fun r => classify r == .failed_missing_fields)⟩) := by
  induction l with
  | nil => simp [validate_images]
  | cons a t ih =>
    unfold validate_images
    rw [ih]
    cases h : classify a <;>
      simp [List.filter_cons, List.countP_cons, h]

/-- C1: the validator evaluates the five gates (download, orientation,
aspect-ratio, resolution, completeness) in that exact fixed order and
classifies each record under the first failing gate only; in particular
the 1800×1600 record fails both the aspect-ratio and the resolution
gate but is counted only under failed-aspect-ratio, and the tallies of
`validate_images` count each record once, under its classification. -/
theorem C1_first_failing_gate_wins :
    (∀ item : Record,
      (classify item = .failed_download ↔ ¬ downloadOk item) ∧
      (classify item = .failed_orientation ↔
        downloadOk item ∧ ¬ orientationOk item) ∧
      (classify item = .failed_aspect ↔
        downloadOk item ∧ orientationOk item ∧ ¬ aspectOk item) ∧
      (classify item = .failed_resolution ↔
        downloadOk item ∧ orientationOk item ∧ aspectOk item ∧
          ¬ resolutionOk item) ∧
      (classify item = .failed_missing_fields ↔
        downloadOk item ∧ orientationOk item ∧ aspectOk item ∧
          resolutionOk item ∧ ¬ fieldsOk item) ∧
      (classify item = .passed ↔
        downloadOk item ∧ orientationOk item ∧ aspectOk item ∧
          resolutionOk item ∧ fieldsOk item)) ∧
    (∀ l : List Record, (validate_images l).2 =
      ⟨l.countP (fun r => classify r == .failed_download),
       l.countP (fun r => classify r == .failed_orientation),
       l.countP (fun r => classify r == .failed_aspect),
       l.countP (fun r => classify r == .failed_resolution),
       l.countP (fun r => classify r == .failed_missing_fields)⟩) ∧
    ¬ aspectOk exRecord1800 ∧ ¬ resolutionOk exRecord1800 ∧
    classify exRecord1800 = .failed_aspect ∧
    (validate_images [exRecord1800]).2 = ⟨0, 0, 1, 0, 0⟩ := by
  refine ⟨classify_eq_first_gate, fun l => ?_, ?_, ?_,
    classify_exRecord1800, ?_⟩
  · rw [validate_images_eq]
  · show ¬ minAspect ≤ aspectOf exRecord1800
    norm_num [aspectOf, exRecord1800, minAspect]
  · show ¬ MIN_WIDTH ≤ (exRecord1800.width.getD 0)
    norm_num [exRecord1800, MIN_WIDTH]
  · simp [validate_images, classify_exRecord1800]

/-- An optional-int dict entry is truthy exactly when it holds a nonzero
int. -/
theorem optInt_truthy {o : Option Int} :
    (optInt o).truthy = true ↔ ∃ n, o = some n ∧ n ≠ 0 := by
  cases o <;> simp [optInt, PyVal.truthy]

/-- An optional-string dict entry is truthy exactly when it holds a
nonempty string. -/
theorem optStr_truthy {o : Option String} :
    (optStr o).truthy = true ↔ ∃ s, o = some s ∧ s ≠ "" := by
  cases o <;> simp [optStr, PyVal.truthy]

/-- A record accepted by `validate_images` was classified `passed`. -/
theorem mem_valid_classify {l : List Record} {item : Record}
    (h : item ∈ (validate_images l).1) : classify item = .passed := by
  rw [validate_images_eq] at h
  simpa using (List.of_mem_filter h)

/-- C2: every record accepted by the validator has downloaded = 1,
width > height, width / height ≥ 1.3 (the configured minimum aspect
ratio) as exact rationals, width ≥ 1920 (the configured minimum width),
and every configured required field present and truthy. -/
theorem C2_accepted_record_invariants (l : List Record) (item : Record)
    (hmem : item ∈ (validate_images l).1) :
    item.downloaded = some 1 ∧
    (∃ w hgt : Int, item.width = some w ∧ item.height = some hgt ∧
      hgt < w ∧ minAspect ≤ (w : Rat) / (hgt : Rat) ∧ MIN_WIDTH ≤ w) ∧
    (∀ f ∈ REQUIRED_FIELDS, (item.get f).truthy = true) := by
  have hc := mem_valid_classify hmem
  obtain ⟨hdl, hor, hasp, hres, hflds⟩ :=
    ((classify_eq_first_gate item).2.2.2.2.2).mp hc
  have hall : ∀ f ∈ REQUIRED_FIELDS, (item.get f).truthy = true := by
    have := (List.all_eq_true).mp hflds
    simpa using this
  obtain ⟨w, hw, hw0⟩ := optInt_truthy.mp (by
    have := hall "width" (by simp [REQUIRED_FIELDS])
    simpa [Record.get] using this)
  obtain ⟨hgt, hh, hh0⟩ := optInt_truthy.mp (by
    have := hall "height" (by simp [REQUIRED_FIELDS])
    simpa [Record.get] using this)
  refine ⟨hdl, ⟨w, hgt, hw, hh, ?_, ?_, ?_⟩, hall⟩
  · simpa [orientationOk, hw, hh] using hor
  · have hasp' : minAspect ≤ aspectOf item := hasp
    have hpos : 0 < item.height.getD 0 := by
      by_contra hle
      have h0 : aspectOf item = 0 := by simp [aspectOf, hle]
      rw [h0] at hasp'
      norm_num [minAspect] at hasp'
    have hpos' : (0 : Int) < hgt := by simpa [hh] using hpos
    have hval : aspectOf item = (w : Rat) / (hgt : Rat) := by
      simp [aspectOf, hh, hw, hpos']
    rw [hval] at hasp'
    exact hasp'
  · simpa [resolutionOk, hw] using hres

/-- A record passing all five gates, used to witness C2. -/
def exRecordPass : Record :=
  { id := "pass1", image_url := some "http://img/pass1",
    photographer_name := some "Galen", width := some 2400,
    height := some 1600, downloaded := some 1 }

/-- The witness record passes all five gates. -/
theorem classify_exRecordPass : classify exRecordPass = .passed := by
  norm_num [classify, exRecordPass, aspectOf, minAspect, MIN_WIDTH,
    requiredOk, REQUIRED_FIELDS, Record.get, optStr, optInt, PyVal.truthy]
  intro h
  exact absurd (h (by decide) (by decide)) (by decide)

/-- The witness record is a member of the accepted list. -/
theorem mem_exRecordPass :
    exRecordPass ∈ (validate_images [exRecordPass]).1 := by
  simp [validate_images, classify_exRecordPass]

/-- Witness for C2: the concrete record `exRecordPass` is accepted and
satisfies every invariant of the claim. -/
theorem C2_accepted_record_invariants_witness :
    exRecordPass ∈ (validate_images [exRecordPass]).1 ∧
    (exRecordPass.downloaded = some 1 ∧
    (∃ w hgt : Int, exRecordPass.width = some w ∧
      exRecordPass.height = some hgt ∧
      hgt < w ∧ minAspect ≤ (w : Rat) / (hgt : Rat) ∧ MIN_WIDTH ≤ w) ∧
    (∀ f ∈ REQUIRED_FIELDS, (exRecordPass.get f).truthy = true)) :=
  ⟨mem_exRecordPass,
   C2_accepted_record_invariants [exRecordPass] exRecordPass
     mem_exRecordPass⟩

/-- A record that passed the download gate, has width present but equal
to 0, and has no height field. -/
def exRecordW0 : Record :=
  { id := "w0", image_url := some "http://img/w0",
    photographer_name := some "Dora", width := some 0,
    height := none, downloaded := some 1 }

/-- Counterexample to C10 as stated: `exRecordW0` lacks only the height
field, yet the validator rejects it at the orientation gate (both
defaulted dimensions are 0, so width ≤ height), not at the aspect-ratio
gate. -/
theorem C10_counterexample :
    exRecordW0.downloaded = some 1 ∧ exRecordW0.width = some 0 ∧
    exRecordW0.height = none ∧
    classify exRecordW0 = .failed_orientation ∧
    classify exRecordW0 ≠ .failed_aspect := by
  refine ⟨rfl, rfl, rfl, ?_, ?_⟩ <;> simp [classify, exRecordW0]

/-- C10 (amended): a record that passes the download gate and lacks its
width field is rejected at the orientation gate (whenever any present
height is non-negative, in particular whenever height is also absent);
one that lacks only its height field and has positive width is rejected
at the aspect-ratio gate; and a record lacking width or height is never
classified under failed-missing-fields, although width and height are
required fields. -/
theorem C10_missing_dims_first_gates (item : Record)
    (hd : item.downloaded = some 1) :
    (item.width = none →
      (∀ hv : Int, item.height = some hv → 0 ≤ hv) →
      classify item = .failed_orientation) ∧
    (∀ w : Int, item.width = some w → 0 < w → item.height = none →
      classify item = .failed_aspect) ∧
    ((item.width = none ∨ item.height = none) →
      classify item ≠ .failed_missing_fields) := by
  refine ⟨?_, ?_, ?_⟩
  · intro hw hh
    have h0 : (0 : Int) ≤ item.height.getD 0 := by
      cases hh0 : item.height with
      | none => simp
      | some v => simpa using hh v hh0
    simp [classify, hd, hw, h0]
  · intro w hw hwpos hh
    have hnle : ¬ (item.width.getD 0 ≤ item.height.getD 0) := by
      simpa [hw, hh] using not_le.mpr hwpos
    have hasp : aspectOf item < minAspect := by
      have hz : aspectOf item = 0 := by simp [aspectOf, hh]
      rw [hz]; norm_num [minAspect]
    simp [classify, hd, hnle, hasp]
  · intro hcase
    by_cases hor : item.width.getD 0 ≤ item.height.getD 0
    · simp [classify, hd, hor]
    · have hasp : aspectOf item < minAspect := by
        rcases hcase with hw | hh
        · have hneg : item.height.getD 0 < 0 := by
            simpa [hw] using not_le.mp hor
          have hnlt : ¬ (0 : Int) < item.height.getD 0 :=
            not_lt.mpr hneg.le
          have hz : aspectOf item = 0 := by simp [aspectOf, hnlt]
          rw [hz]; norm_num [minAspect]
        · have hz : aspectOf item = 0 := by simp [aspectOf, hh]
          rw [hz]; norm_num [minAspect]
      simp [classify, hd, hor, hasp]

/-- A downloaded record with no width field and a positive height. -/
def exRecordNoW : Record :=
  { id := "nw", image_url := some "http://img/nw",
    photographer_name := some "Eve", height := some 1200,
    downloaded := some 1 }

/-- Witness for the amended C10: the concrete width-less record is
rejected at the orientation gate. -/
theorem C10_missing_dims_first_gates_witness :
    exRecordNoW.downloaded = some 1 ∧ exRecordNoW.width = none ∧
    classify exRecordNoW = .failed_orientation :=
  ⟨rfl, rfl, (C10_missing_dims_first_gates exRecordNoW rfl).1 rfl
    (fun hv h => by simp [exRecordNoW] at h; omega)⟩

/-- The loop of `remove_duplicates` in `clean.py`: walk the batch once,
keeping a record when its id has not been seen (and adding the id to
the seen set, here a list), otherwise counting it as removed.  The
first component is `unique_data`, the second `duplicates_removed`. -/
def remove_duplicates_go : List Record → List String → List Record × Nat
  | [], _ => ([], 0)
  | item :: rest, seen =>
    if item.id ∈ seen then
      ((remove_duplicates_go rest seen).1,
       (remove_duplicates_go rest seen).2 + 1)
    else
      (item :: (remove_duplicates_go rest (item.id :: seen)).1,
       (remove_duplicates_go rest (item.id :: seen)).2)

/-- `remove_duplicates` of `clean.py`, starting from an empty seen
set. -/
def remove_duplicates (data : List Record) : List Record × Nat :=
  remove_duplicates_go data []

/-- Invariants of the dedup loop, generalized over the seen set: the
output is a sublist of the input with pairwise-distinct ids none of
which is in `seen`, output length plus removed count is the input
length, every input id outside `seen` is represented, and every output
record is the first input record bearing its id. -/
theorem remove_duplicates_go_spec (data : List Record) :
    ∀ seen : List String,
      (remove_duplicates_go data seen).1.Sublist data ∧
      ((remove_duplicates_go data seen).1.map Record.id).Nodup ∧
      (∀ r ∈ (remove_duplicates_go data seen).1, r.id ∉ seen) ∧
      (remove_duplicates_go data seen).1.length +
        (remove_duplicates_go data seen).2 = data.length ∧
      (∀ r ∈ data, r.id ∉ seen →
        ∃ q ∈ (remove_duplicates_go data seen).1, q.id = r.id) ∧
      (∀ r ∈ (remove_duplicates_go data seen).1,
        data.find? (fun x => x.id == r.id) = some r) := by
  induction data with
  | nil => intro seen; simp [remove_duplicates_go]
  | cons a t ih =>
    intro seen
    by_cases hmem : a.id ∈ seen
    · obtain ⟨hsub, hnd, hnotin, hlen, hcov, hfst⟩ := ih seen
      simp only [remove_duplicates_go, if_pos hmem]
      refine ⟨hsub.cons _, hnd, hnotin,
        by simp only [List.length_cons]; omega, ?_, ?_⟩
      · intro r hr hrid
        rcases List.mem_cons.mp hr with heq | hrt
        · exact absurd (heq.symm ▸ hmem) hrid
        · exact hcov r hrt hrid
      · intro r hr
        have hne : (a.id == r.id) = false := by
          have hni : r.id ∉ seen := hnotin r hr
          simp only [beq_eq_false_iff_ne, ne_eq]
          intro heq
          exact hni (heq ▸ hmem)
        rw [List.find?_cons_of_neg _ (by simp [hne]), hfst r hr]
    · obtain ⟨hsub, hnd, hnotin, hlen, hcov, hfst⟩ := ih (a.id :: seen)
      simp only [remove_duplicates_go, if_neg hmem]
      refine ⟨hsub.cons₂ _, ?_, ?_,
        by simp only [List.length_cons]; omega, ?_, ?_⟩
      · simp only [List.map_cons, List.nodup_cons]
        refine ⟨?_, hnd⟩
        intro hcontra
        obtain ⟨q, hq, hqid⟩ := List.mem_map.mp hcontra
        exact (hnotin q hq) (hqid ▸ List.mem_cons_self _ _)
      · intro r hr
        rcases List.mem_cons.mp hr with rfl | hru
        · exact hmem
        · exact fun hc => (hnotin r hru) (List.mem_cons_of_mem _ hc)
      · intro r hr hrid
        rcases List.mem_cons.mp hr with heq | hrt
        · exact ⟨a, List.mem_cons_self _ _, (congrArg Record.id heq).symm⟩
        · by_cases hid : r.id = a.id
          · exact ⟨a, List.mem_cons_self _ _, hid.symm⟩
          · obtain ⟨q, hq, hqid⟩ := hcov r hrt (by
              simp only [List.mem_cons]
              rintro (h | h)
              · exact hid h
              · exact hrid h)
            exact ⟨q, List.mem_cons_of_mem _ hq, hqid⟩
      · intro r hr
        rcases List.mem_cons.mp hr with heq | hru
        · subst heq
          rw [List.find?_cons_of_pos _ (by simp)]
        · have hne : (a.id == r.id) = false := by
            have hni : r.id ∉ a.id :: seen := hnotin r hru
            simp only [beq_eq_false_iff_ne, ne_eq]
            intro heq
            exact hni (heq ▸ List.mem_cons_self a.id seen)
          rw [List.find?_cons_of_neg _ (by simp [hne]), hfst r hru]

/-- C4: deduplication returns a subsequence of the input (hence of
length at most the input length and in original relative order) whose
identities are pairwise distinct, in which every input identity is
represented, each output record being the first input record with its
identity, and the removed count is the number of discarded records. -/
theorem C4_remove_duplicates_first_occurrence (data : List Record) :
    (remove_duplicates data).1.Sublist data ∧
    (remove_duplicates data).1.length ≤ data.length ∧
    ((remove_duplicates data).1.map Record.id).Nodup ∧
    (∀ r ∈ data, ∃ q ∈ (remove_duplicates data).1, q.id = r.id) ∧
    (∀ r ∈ (remove_duplicates data).1,
      data.find? (fun x => x.id == r.id) = some r) ∧
    (remove_duplicates data).1.length + (remove_duplicates data).2 =
      data.length := by
  obtain ⟨hsub, hnd, _, hlen, hcov, hfst⟩ :=
    remove_duplicates_go_spec data []
  exact ⟨hsub, hsub.length_le, hnd,
    fun r hr => hcov r hr (List.not_mem_nil _), hfst, hlen⟩

/-- Three records, the first two sharing the identity "a". -/
def dupA1 : Record := { id := "a" }

/-- Second record with identity "a" (distinct content). -/
def dupA2 : Record := { id := "a", query := some "later copy" }

/-- A record with identity "b". -/
def dupB : Record := { id := "b" }

/-- Witness for C4: on the batch `[dupA1, dupA2, dupB]` the duplicate
identity of `dupA2` is still represented in the output. -/
theorem C4_remove_duplicates_first_occurrence_witness :
    dupA2 ∈ [dupA1, dupA2, dupB] ∧
    ∃ q ∈ (remove_duplicates [dupA1, dupA2, dupB]).1, q.id = dupA2.id :=
  ⟨by decide,
   (C4_remove_duplicates_first_occurrence [dupA1, dupA2, dupB]).2.2.2.1
     dupA2 (by decide)⟩

/-- Round-half-to-even on rationals, the convention of Python `round`
(on exact values; binary-float noise is abstracted away, as section 4.2
of the specification allows). -/
def roundHalfEven (q : Rat) : Int :=
  if q - q.floor < 1 / 2 then q.floor
  else if 1 / 2 < q - q.floor then q.floor + 1
  else if 2 ∣ q.floor then q.floor else q.floor + 1

/-- `round(x, 2)` of Python on the rational embedding. -/
def round2 (q : Rat) : Rat := (roundHalfEven (q * 100) : Rat) / 100

/-- `round(x, 1)` of Python on the rational embedding. -/
def round1 (q : Rat) : Rat := (roundHalfEven (q * 10) : Rat) / 10

/-- Python `' '.join(s.split())` from `enhance_metadata` in `clean.py`:
split on whitespace runs, drop empty pieces, re-join with single
spaces.  (Collapses internal whitespace and trims both ends.) -/
def normalize_ws (s : String) : String :=
  String.intercalate " "
    ((s.split fun c => c.isWhitespace).filter (fun t => t ≠ ""))

/-- The loop body of `enhance_metadata` in `clean.py` for one record:
add `aspect_ratio` (here `aspectR`) and `megapixels` when both
dimensions are truthy, and normalize the description when truthy. -/
def enhance_one (item : Record) : Record :=
  let item1 :=
    if (optInt item.width).truthy && (optInt item.height).truthy then
      { item with aspectR := some (round2
          (((item.width.getD 0 : Int) : Rat) /
           ((item.height.getD 0 : Int) : Rat))) }
    else item
  let item2 :=
    if (optInt item.width).truthy && (optInt item.height).truthy then
      { item1 with megapixels := some (round1
          (((item.width.getD 0 * item.height.getD 0 : Int) : Rat) /
           1000000)) }
    else item1
  if (optStr item.description).truthy then
    { item2 with description := some (normalize_ws (item.description.getD "")) }
  else item2

/-- `enhance_metadata` of `clean.py`: enhance every record of the batch
in place and return the batch. -/
def enhance_metadata : List Record → List Record
  | [] => []
  | item :: rest => enhance_one item :: enhance_metadata rest

/-- The `aspectR` field written by `enhance_one`. -/
theorem enhance_one_aspectR (item : Record) :
    (enhance_one item).aspectR =
      if ((optInt item.width).truthy && (optInt item.height).truthy) = true
      then some (round2 (((item.width.getD 0 : Int) : Rat) /
        ((item.height.getD 0 : Int) : Rat)))
      else item.aspectR := by
  by_cases h1 : ((optInt item.width).truthy &&
      (optInt item.height).truthy) = true <;>
    by_cases h2 : (optStr item.description).truthy = true <;>
      simp [enhance_one, h1, h2]

/-- The `megapixels` field written by `enhance_one`. -/
theorem enhance_one_megapixels (item : Record) :
    (enhance_one item).megapixels =
      if ((optInt item.width).truthy && (optInt item.height).truthy) = true
      then some (round1 (((item.width.getD 0 * item.height.getD 0 : Int) :
        Rat) / 1000000))
      else item.megapixels := by
  by_cases h1 : ((optInt item.width).truthy &&
      (optInt item.height).truthy) = true <;>
    by_cases h2 : (optStr item.description).truthy = true <;>
      simp [enhance_one, h1, h2]

/-- The `description` field written by `enhance_one`. -/
theorem enhance_one_description (item : Record) :
    (enhance_one item).description =
      if (optStr item.description).truthy = true
      then some (normalize_ws (item.description.getD ""))
      else item.description := by
  by_cases h1 : ((optInt item.width).truthy &&
      (optInt item.height).truthy) = true <;>
    by_cases h2 : (optStr item.description).truthy = true <;>
      simp [enhance_one, h1, h2]

/-- `enhance_one` never changes id, width, or height. -/
theorem enhance_one_fixed (item : Record) :
    (enhance_one item).id = item.id ∧
    (enhance_one item).width = item.width ∧
    (enhance_one item).height = item.height := by
  by_cases h1 : ((optInt item.width).truthy &&
      (optInt item.height).truthy) = true <;>
    by_cases h2 : (optStr item.description).truthy = true <;>
      simp [enhance_one, h1, h2]

/-- C7: enrichment maps every input record to its enhanced version
(never rejecting, so the output has the input length); on each record
it sets `aspectR` to width/height rounded to 2 decimals and
`megapixels` to width×height/1000000 rounded to 1 decimal whenever both
dimensions are present and nonzero, leaves the two derived fields
untouched otherwise, and replaces a present, nonempty description by
its whitespace-normalized form (leaving an absent or empty one
untouched), never changing id, width, or height. -/
theorem C7_enhance_metadata_spec :
    (∀ data : List Record,
      enhance_metadata data = data.map enhance_one ∧
      (enhance_metadata data).length = data.length) ∧
    (∀ item : Record,
      (∀ w hv : Int, item.width = some w → w ≠ 0 →
        item.height = some hv → hv ≠ 0 →
        (enhance_one item).aspectR =
          some (round2 ((w : Rat) / (hv : Rat))) ∧
        (enhance_one item).megapixels =
          some (round1 (((w * hv : Int) : Rat) / 1000000))) ∧
      ((optInt item.width).truthy = false ∨
          (optInt item.height).truthy = false →
        (enhance_one item).aspectR = item.aspectR ∧
        (enhance_one item).megapixels = item.megapixels) ∧
      (∀ d : String, item.description = some d → d ≠ "" →
        (enhance_one item).description = some (normalize_ws d)) ∧
      ((optStr item.description).truthy = false →
        (enhance_one item).description = item.description) ∧
      (enhance_one item).id = item.id ∧
      (enhance_one item).width = item.width ∧
      (enhance_one item).height = item.height) := by
  have hmap : ∀ data : List Record,
      enhance_metadata data = data.map enhance_one := by
    intro data
    induction data with
    | nil => rfl
    | cons a t ih => simp [enhance_metadata, ih]
  refine ⟨fun data => ⟨hmap data, by rw [hmap data, List.length_map]⟩,
    fun item => ⟨?_, ?_, ?_, ?_, (enhance_one_fixed item).1,
      (enhance_one_fixed item).2.1, (enhance_one_fixed item).2.2⟩⟩
  · intro w hv hw hw0 hh hh0
    rw [enhance_one_aspectR, enhance_one_megapixels]
    simp [hw, hh, optInt, PyVal.truthy, hw0, hh0]
  · intro hfalse
    have hcond : ((optInt item.width).truthy &&
        (optInt item.height).truthy) = false := by
      rcases hfalse with h | h <;> simp [h]
    rw [enhance_one_aspectR, enhance_one_megapixels]
    simp [hcond]
  · intro d hd hd0
    rw [enhance_one_description]
    simp [hd, optStr, PyVal.truthy, hd0]
  · intro hfalse
    rw [enhance_one_description]
    simp [hfalse]

/-- A record with both dimensions and a messy description, to witness
C7. -/
def exRecordDesc : Record :=
  { id := "d1", width := some 2000, height := some 1000,
    description := some "  Two   Spaces " }

/-- Witness for C7: on the concrete record the derived fields and the
normalized description are produced as claimed. -/
theorem C7_enhance_metadata_spec_witness :
    ((enhance_one exRecordDesc).aspectR =
      some (round2 ((2000 : Rat) / (1000 : Rat))) ∧
    (enhance_one exRecordDesc).megapixels =
      some (round1 (((2000 * 1000 : Int) : Rat) / 1000000))) ∧
    (enhance_one exRecordDesc).description =
      some (normalize_ws "  Two   Spaces ") :=
  ⟨(C7_enhance_metadata_spec.2 exRecordDesc).1 2000 1000 rfl (by decide)
      rfl (by decide),
   (C7_enhance_metadata_spec.2 exRecordDesc).2.2.1 "  Two   Spaces " rfl
      (by decide)⟩

/-- First-occurrence-ordered distinct keys of a list, modelling the key
iteration order of a Python `Counter`/dict built by insertion. -/
def uniqueKeys : List String → List String
  | [] => []
  | x :: xs => x :: (uniqueKeys xs).filter (fun y => y ≠ x)

/-- The statistics dict returned by `analyze_data` in `clean.py`:
total, downloaded, duplicates (count of distinct ids occurring more
than once), the duplicate ids themselves (in first-insertion order),
and the landscape/portrait tallies over the positionally zipped width
and height lists. -/
structure AnalyzeStats where
  total : Nat
  downloaded : Nat
  duplicates : Nat
  duplicate_ids : List String
  landscape_count : Nat
  portrait_count : Nat
deriving DecidableEq

/-- `analyze_data` of `clean.py` (the returned dict; the printing is
side effect only).  `widths` and `heights` are comprehensions filtered
on key presence, then zipped positionally, exactly as in the source. -/
def analyze_data (data : List Record) : AnalyzeStats :=
  { total := data.length
    downloaded := data.countP (fun d => d.downloaded == some 1)
    duplicates := ((uniqueKeys (data.map Record.id)).filter
      (fun i => decide (1 < (data.map Record.id).count i))).length
    duplicate_ids := (uniqueKeys (data.map Record.id)).filter
      (fun i => decide (1 < (data.map Record.id).count i))
    landscape_count := ((data.filterMap Record.width).zip
      (data.filterMap Record.height)).countP (fun p => decide (p.2 < p.1))
    portrait_count := ((data.filterMap Record.width).zip
      (data.filterMap Record.height)).countP (fun p => decide (p.1 < p.2)) }

/-- The three coverage percentages printed by `analyze_data`
(`with_location/total*100` and the country and description analogues):
in Python these expressions raise `ZeroDivisionError` when `total` is
0, embedded as an `Except` error. -/
def analyze_pcts (data : List Record) :
    Except String (Rat × Rat × Rat) :=
  if data.length = 0 then .error "ZeroDivisionError"
  else .ok
    (((data.countP fun d => (optStr d.location_name).truthy : Nat) : Rat) /
        (data.length : Rat) * 100,
     ((data.countP fun d => (optStr d.country).truthy : Nat) : Rat) /
        (data.length : Rat) * 100,
     ((data.countP fun d => (optStr d.description).truthy : Nat) : Rat) /
        (data.length : Rat) * 100)

/-- The data-quality percentage `cleaned_count/stats['total']*100` of
`generate_report` in `clean.py`; raises `ZeroDivisionError` when the
total is 0. -/
def data_quality_pct (total cleaned : Nat) : Except String Rat :=
  if total = 0 then .error "ZeroDivisionError"
  else .ok ((cleaned : Rat) / (total : Rat) * 100)

/-- The `'='*60` separator line of the report template. -/
def eqLine : String := String.mk (List.replicate 60 '=')

/-- Python `:.1f` formatting of a non-negative rational: one decimal,
round-half-to-even. -/
def fmt1 (q : Rat) : String :=
  toString (roundHalfEven (q * 10) / 10) ++ "." ++
    toString (roundHalfEven (q * 10) % 10)

/-- The f-string template of `generate_report` in `clean.py`, with the
interpolations spliced in as explicit appends. -/
def report_text (stats : AnalyzeStats) (cleaned : Nat) (dq : Rat) :
    String :=
  "\nDATA CLEANING REPORT\n" ++ eqLine ++
  "\n\nINITIAL DATA\n  • " ++ "Total records: " ++
    toString stats.total ++
  "\n  • Successfully downloaded: " ++ toString stats.downloaded ++
  "\n\nISSUES FOUND\n  • Duplicate images: " ++
    toString stats.duplicates ++
  "\n  • Portrait orientation: " ++ toString stats.portrait_count ++
  "\n  • Low resolution images: (calculated during validation)" ++
  "\n\nCLEANING ACTIONS\n  • Duplicates removed: " ++
    toString stats.duplicates ++
  "\n  • Invalid images filtered: " ++
    toString ((stats.total : Int) - (cleaned : Int)) ++
  "\n\nFINAL CLEAN DATASET\n  • " ++ "Valid images: " ++
    toString cleaned ++
  "\n  • " ++ "Data quality: " ++ fmt1 dq ++ "%" ++
  "\n\n" ++ eqLine ++ "\nGenerated on Day 2 - Data Cleaning\n"

/-- `generate_report` of `clean.py`: compute the data-quality
percentage (which raises on a zero total) and render the fixed
template.  Its only inputs are the `analyze_data` stats and the final
cleaned count — the validation failure tallies are not passed in. -/
def generate_report (stats : AnalyzeStats) (cleaned : Nat) :
    Except String String :=
  match data_quality_pct stats.total cleaned with
  | .error e => .error e
  | .ok dq => .ok (report_text stats cleaned dq)

/-- `s` contains `pat` as a contiguous substring. -/
def strHasSub (s pat : String) : Prop :=
  ∃ pre post : String, s = pre ++ pat ++ post

/-- Counterexample to C5 as stated: on an empty batch both the coverage
percentages of `analyze_data` and `generate_report` raise
`ZeroDivisionError` instead of returning 0. -/
theorem C5_counterexample :
    analyze_pcts [] = .error "ZeroDivisionError" ∧
    generate_report (analyze_data []) 0 = .error "ZeroDivisionError" := by
  constructor <;> rfl

/-- Bounds for a percentage `n/t*100` with `n ≤ t`, `t ≠ 0`. -/
theorem pct_bounds {n t : Nat} (h : n ≤ t) (ht : t ≠ 0) :
    0 ≤ (n : Rat) / (t : Rat) * 100 ∧ (n : Rat) / (t : Rat) * 100 ≤ 100 := by
  have ht' : (0 : Rat) < (t : Rat) := by
    exact_mod_cast Nat.pos_of_ne_zero ht
  constructor
  · positivity
  · have hle : (n : Rat) / (t : Rat) ≤ 1 := by
      rw [div_le_one ht']
      exact_mod_cast h
    calc (n : Rat) / (t : Rat) * 100 ≤ 1 * 100 :=
          mul_le_mul_of_nonneg_right hle (by norm_num)
      _ = 100 := by norm_num

/-- C5 (amended): when the batch is nonempty every coverage percentage
computed by `analyze_data` lies in [0, 100], and for a cleaned count at
most the total the data-quality percentage of `generate_report` lies in
[0, 100]; but when the total is 0 these computations raise
`ZeroDivisionError` rather than returning 0 (see the counterexample). -/
theorem C5_percentages_in_range (data : List Record) (cleaned : Nat)
    (hne : data ≠ []) (hcl : cleaned ≤ data.length) :
    (∃ p1 p2 p3 : Rat, analyze_pcts data = .ok (p1, p2, p3) ∧
      0 ≤ p1 ∧ p1 ≤ 100 ∧ 0 ≤ p2 ∧ p2 ≤ 100 ∧ 0 ≤ p3 ∧ p3 ≤ 100) ∧
    (∃ dq : Rat, data_quality_pct data.length cleaned = .ok dq ∧
      0 ≤ dq ∧ dq ≤ 100) := by
  have hlen : data.length ≠ 0 := by
    simpa [List.length_eq_zero] using hne
  constructor
  · refine ⟨_, _, _, by unfold analyze_pcts; rw [if_neg hlen],
      ?_, ?_, ?_, ?_, ?_, ?_⟩
    · exact (pct_bounds (List.countP_le_length _) hlen).1
    · exact (pct_bounds (List.countP_le_length _) hlen).2
    · exact (pct_bounds (List.countP_le_length _) hlen).1
    · exact (pct_bounds (List.countP_le_length _) hlen).2
    · exact (pct_bounds (List.countP_le_length _) hlen).1
    · exact (pct_bounds (List.countP_le_length _) hlen).2
  · exact ⟨_, by simp [data_quality_pct, hlen],
      (pct_bounds hcl hlen).1, (pct_bounds hcl hlen).2⟩

/-- Witness for the amended C5 on a concrete one-record batch. -/
theorem C5_percentages_in_range_witness :
    ([dupA1] ≠ ([] : List Record) ∧ 1 ≤ [dupA1].length) ∧
    ((∃ p1 p2 p3 : Rat, analyze_pcts [dupA1] = .ok (p1, p2, p3) ∧
      0 ≤ p1 ∧ p1 ≤ 100 ∧ 0 ≤ p2 ∧ p2 ≤ 100 ∧ 0 ≤ p3 ∧ p3 ≤ 100) ∧
    (∃ dq : Rat, data_quality_pct [dupA1].length 1 = .ok dq ∧
      0 ≤ dq ∧ dq ≤ 100)) :=
  ⟨⟨by decide, by decide⟩,
   C5_percentages_in_range [dupA1] 1 (by decide) (by decide)⟩

/-- A downloaded 1800×1600 record (fails the aspect-ratio gate). -/
def rA6 : Record :=
  { id := "a6", image_url := some "http://img/a6",
    photographer_name := some "PA", width := some 1800,
    height := some 1600, downloaded := some 1 }

/-- A downloaded 1300×900 record (ratio 13/9 ≥ 1.3, fails the
resolution gate). -/
def rB6 : Record :=
  { id := "b6", image_url := some "http://img/b6",
    photographer_name := some "PB", width := some 1300,
    height := some 900, downloaded := some 1 }

/-- Counterexample to C6 as stated: two runs whose per-failure-reason
counts differ (one aspect-ratio rejection versus one resolution
rejection) feed `generate_report` identical inputs and so produce the
identical report artifact — the report cannot contain the
per-failure-reason counts, which are never passed to it. -/
theorem C6_counterexample :
    (validate_images [rA6]).2.failed_aspect = 1 ∧
    (validate_images [rB6]).2.failed_aspect = 0 ∧
    (validate_images [rB6]).2.failed_resolution = 1 ∧
    (validate_images [rA6]).2 ≠ (validate_images [rB6]).2 ∧
    generate_report (analyze_data [rA6]) 0 =
      generate_report (analyze_data [rB6]) 0 := by
  have hA : classify rA6 = .failed_aspect := by
    norm_num [classify, rA6, aspectOf, minAspect]
  have hB : classify rB6 = .failed_resolution := by
    norm_num [classify, rB6, aspectOf, minAspect, MIN_WIDTH]
  have hstats : analyze_data [rA6] = analyze_data [rB6] := by decide
  refine ⟨?_, ?_, ?_, ?_, by rw [hstats]⟩ <;>
    simp [validate_images, hA, hB]

/-- C6 (amended): for a nonzero total the report artifact is produced
and contains the initial total, the valid-image count, and a final
data-quality percentage equal to cleaned count / initial total × 100
formatted to one decimal place; the artifact is a function of the
raw-analysis statistics and the cleaned count only, so it contains no
per-failure-reason validation counts (see the counterexample). -/
theorem C6_report_contents (stats : AnalyzeStats) (cleaned : Nat)
    (h : stats.total ≠ 0) :
    ∃ s : String, generate_report stats cleaned = .ok s ∧
      strHasSub s ("Total records: " ++ toString stats.total) ∧
      strHasSub s ("Valid images: " ++ toString cleaned) ∧
      strHasSub s ("Data quality: " ++
        fmt1 ((cleaned : Rat) / (stats.total : Rat) * 100) ++ "%") := by
  refine ⟨report_text stats cleaned
      ((cleaned : Rat) / (stats.total : Rat) * 100), ?_, ?_, ?_, ?_⟩
  · unfold generate_report data_quality_pct
    rw [if_neg h]
  · refine ⟨"\nDATA CLEANING REPORT\n" ++ eqLine ++
      "\n\nINITIAL DATA\n  • ",
      "\n  • Successfully downloaded: " ++ toString stats.downloaded ++
      "\n\nISSUES FOUND\n  • Duplicate images: " ++
        toString stats.duplicates ++
      "\n  • Portrait orientation: " ++ toString stats.portrait_count ++
      "\n  • Low resolution images: (calculated during validation)" ++
      "\n\nCLEANING ACTIONS\n  • Duplicates removed: " ++
        toString stats.duplicates ++
      "\n  • Invalid images filtered: " ++
        toString ((stats.total : Int) - (cleaned : Int)) ++
      "\n\nFINAL CLEAN DATASET\n  • " ++ "Valid images: " ++
        toString cleaned ++
      "\n  • " ++ "Data quality: " ++
        fmt1 ((cleaned : Rat) / (stats.total : Rat) * 100) ++ "%" ++
      "\n\n" ++ eqLine ++
      "\nGenerated on Day 2 - Data Cleaning\n", ?_⟩
    simp only [report_text, String.append_assoc]
  · refine ⟨"\nDATA CLEANING REPORT\n" ++ eqLine ++
      "\n\nINITIAL DATA\n  • " ++ "Total records: " ++
        toString stats.total ++
      "\n  • Successfully downloaded: " ++ toString stats.downloaded ++
      "\n\nISSUES FOUND\n  • Duplicate images: " ++
        toString stats.duplicates ++
      "\n  • Portrait orientation: " ++ toString stats.portrait_count ++
      "\n  • Low resolution images: (calculated during validation)" ++
      "\n\nCLEANING ACTIONS\n  • Duplicates removed: " ++
        toString stats.duplicates ++
      "\n  • Invalid images filtered: " ++
        toString ((stats.total : Int) - (cleaned : Int)) ++
      "\n\nFINAL CLEAN DATASET\n  • ",
      "\n  • " ++ "Data quality: " ++
        fmt1 ((cleaned : Rat) / (stats.total : Rat) * 100) ++ "%" ++
      "\n\n" ++ eqLine ++
      "\nGenerated on Day 2 - Data Cleaning\n", ?_⟩
    simp only [report_text, String.append_assoc]
  · refine ⟨"\nDATA CLEANING REPORT\n" ++ eqLine ++
      "\n\nINITIAL DATA\n  • " ++ "Total records: " ++
        toString stats.total ++
      "\n  • Successfully downloaded: " ++ toString stats.downloaded ++
      "\n\nISSUES FOUND\n  • Duplicate images: " ++
        toString stats.duplicates ++
      "\n  • Portrait orientation: " ++ toString stats.portrait_count ++
      "\n  • Low resolution images: (calculated during validation)" ++
      "\n\nCLEANING ACTIONS\n  • Duplicates removed: " ++
        toString stats.duplicates ++
      "\n  • Invalid images filtered: " ++
        toString ((stats.total : Int) - (cleaned : Int)) ++
      "\n\nFINAL CLEAN DATASET\n  • " ++ "Valid images: " ++
        toString cleaned ++
      "\n  • ",
      "\n\n" ++ eqLine ++
      "\nGenerated on Day 2 - Data Cleaning\n", ?_⟩
    simp only [report_text, String.append_assoc]

/-- Witness for the amended C6, at the concrete stats of a one-record
run with zero accepted records. -/
theorem C6_report_contents_witness :
    (analyze_data [rA6]).total ≠ 0 ∧
    (∃ s : String, generate_report (analyze_data [rA6]) 0 = .ok s ∧
      strHasSub s ("Total records: " ++
        toString (analyze_data [rA6]).total) ∧
      strHasSub s ("Valid images: " ++ toString 0) ∧
      strHasSub s ("Data quality: " ++
        fmt1 ((0 : Rat) / ((analyze_data [rA6]).total : Rat) * 100) ++
          "%")) :=
  ⟨by decide, C6_report_contents (analyze_data [rA6]) 0 (by decide)⟩

/-- `insert_images` of `load_sqlite.py`, with the database abstracted
to its list of stored identities (the `images` table enforces
uniqueness of `id`): each record is inserted unless its id is already
stored, in which case sqlite raises `IntegrityError`, caught by the
`except` arm which counts the record as skipped and moves on to the
next record.  Returns (inserted, skipped, final stored ids). -/
def insert_images (db : List String) :
    List Record → Nat × Nat × List String
  | [] => (0, 0, db)
  | item :: rest =>
    if item.id ∈ db then
      ((insert_images db rest).1,
       (insert_images db rest).2.1 + 1,
       (insert_images db rest).2.2)
    else
      ((insert_images (db ++ [item.id]) rest).1 + 1,
       (insert_images (db ++ [item.id]) rest).2.1,
       (insert_images (db ++ [item.id]) rest).2.2)

/-- C8: a record rejected by the identity-uniqueness constraint is
skipped and counted without aborting the batch: inserted plus skipped
equals the number of input records, every input identity is present in
the final store (so insertion continued past every rejection), the
previously stored identities are preserved, and the store keeps its
identities unique. -/
theorem C8_insert_images_tolerates_conflicts (db : List String)
    (data : List Record) :
    (insert_images db data).1 + (insert_images db data).2.1 =
      data.length ∧
    (∀ r ∈ data, r.id ∈ (insert_images db data).2.2) ∧
    (∀ i ∈ db, i ∈ (insert_images db data).2.2) ∧
    (db.Nodup → (insert_images db data).2.2.Nodup) := by
  induction data generalizing db with
  | nil => simp [insert_images]
  | cons a t ih =>
    by_cases hmem : a.id ∈ db
    · obtain ⟨hcount, hall, hkeep, hnd⟩ := ih db
      refine ⟨?_, ?_, ?_, ?_⟩
      · simp only [insert_images, if_pos hmem, List.length_cons]
        omega
      · intro r hr
        rcases List.mem_cons.mp hr with heq | hrt
        · simp only [insert_images, if_pos hmem]
          exact heq ▸ hkeep a.id hmem
        · simp only [insert_images, if_pos hmem]
          exact hall r hrt
      · intro i hi
        simp only [insert_images, if_pos hmem]
        exact hkeep i hi
      · intro hdb
        simp only [insert_images, if_pos hmem]
        exact hnd hdb
    · obtain ⟨hcount, hall, hkeep, hnd⟩ := ih (db ++ [a.id])
      refine ⟨?_, ?_, ?_, ?_⟩
      · simp only [insert_images, if_neg hmem, List.length_cons]
        omega
      · intro r hr
        rcases List.mem_cons.mp hr with heq | hrt
        · simp only [insert_images, if_neg hmem]
          exact heq ▸ hkeep a.id (by simp)
        · simp only [insert_images, if_neg hmem]
          exact hall r hrt
      · intro i hi
        simp only [insert_images, if_neg hmem]
        exact hkeep i (by simp [hi])
      · intro hdb
        simp only [insert_images, if_neg hmem]
        exact hnd (by
          simp only [List.nodup_append, List.nodup_cons, List.nodup_nil,
            and_true, true_and]
          exact ⟨hdb, by simpa using hmem⟩)

/-- Witness for C8: on a batch whose first two records share identity
"a", one record is skipped, the two others are inserted, and the record
after the rejected one is still stored. -/
theorem C8_insert_images_tolerates_conflicts_witness :
    dupB ∈ [dupA1, dupA2, dupB] ∧
    dupB.id ∈ (insert_images [] [dupA1, dupA2, dupB]).2.2 ∧
    (insert_images [] [dupA1, dupA2, dupB]).1 = 2 ∧
    (insert_images [] [dupA1, dupA2, dupB]).2.1 = 1 :=
  ⟨by decide,
   (C8_insert_images_tolerates_conflicts [] [dupA1, dupA2, dupB]).2.1
     dupB (by decide),
   by decide, by decide⟩

/-- Byte-wise list prefix test. -/
def isPrefixL : List Char → List Char → Bool
  | [], _ => true
  | _ :: _, [] => false
  | a :: as, b :: bs => a == b && isPrefixL as bs

/-- Python substring membership `pat in txt` on character lists: `pat`
occurs contiguously (the empty pattern always occurs). -/
def containsL (pat : List Char) : List Char → Bool
  | [] => pat.isEmpty
  | c :: rest => isPrefixL pat (c :: rest) || containsL pat rest

/-- Python `pat in txt` on strings. -/
def strIn (pat txt : String) : Bool := containsL pat.data txt.data

/-- The `landmarks` dict literal of `extract_location_from_text` in
`ingest.py`, as the ordered association list a Python dict iterates in
(insertion order; the literal repeats the key `'milford sound'` with
the same value, so the dict holds it once, at its first position). -/
def landmarks : List (String × String) :=
  [("jokulsarlon", "Jökulsárlón Glacier Lagoon"),
   ("skogafoss", "Skógafoss"),
   ("seljalandsfoss", "Seljalandsfoss"),
   ("gulfoss", "Gullfoss"),
   ("reynisfjara", "Reynisfjara Black Beach"),
   ("kirkjufell", "Kirkjufell"),
   ("yosemite", "Yosemite Valley"),
   ("grand canyon", "Grand Canyon"),
   ("yellowstone", "Yellowstone"),
   ("zion", "Zion National Park"),
   ("bryce canyon", "Bryce Canyon"),
   ("arches", "Arches National Park"),
   ("antelope canyon", "Antelope Canyon"),
   ("crater lake", "Crater Lake"),
   ("death valley", "Death Valley"),
   ("monument valley", "Monument Valley"),
   ("sedona", "Sedona"),
   ("havasu falls", "Havasu Falls"),
   ("banff", "Banff National Park"),
   ("moraine lake", "Moraine Lake"),
   ("lake louise", "Lake Louise"),
   ("peyto lake", "Peyto Lake"),
   ("jasper", "Jasper National Park"),
   ("patagonia", "Patagonia"),
   ("torres del paine", "Torres del Paine"),
   ("iguazu", "Iguazu Falls"),
   ("salar de uyuni", "Salar de Uyuni"),
   ("machu picchu", "Machu Picchu"),
   ("atacama", "Atacama Desert"),
   ("perito moreno", "Perito Moreno Glacier"),
   ("dolomites", "Dolomites"),
   ("matterhorn", "Matterhorn"),
   ("lofoten", "Lofoten Islands"),
   ("faroe", "Faroe Islands"),
   ("plitvice", "Plitvice Lakes"),
   ("lake bled", "Lake Bled"),
   ("swiss alps", "Swiss Alps"),
   ("scottish highlands", "Scottish Highlands"),
   ("amalfi", "Amalfi Coast"),
   ("cinque terre", "Cinque Terre"),
   ("santorini", "Santorini"),
   ("meteora", "Meteora"),
   ("cappadocia", "Cappadocia"),
   ("pamukkale", "Pamukkale"),
   ("mount fuji", "Mount Fuji"),
   ("zhangjiajie", "Zhangjiajie"),
   ("guilin", "Guilin"),
   ("halong bay", "Halong Bay"),
   ("phi phi", "Phi Phi Islands"),
   ("bali", "Bali"),
   ("milford sound", "Milford Sound"),
   ("mount cook", "Mount Cook"),
   ("lake tekapo", "Lake Tekapo"),
   ("uluru", "Uluru"),
   ("twelve apostles", "Twelve Apostles"),
   ("fiordland", "Fiordland")]

/-- The `countries` dict literal of `extract_location_from_text` in
`ingest.py`, in its insertion order. -/
def countries : List (String × String) :=
  [("iceland", "Iceland"),
   ("norway", "Norway"),
   ("switzerland", "Switzerland"),
   ("italy", "Italy"),
   ("canada", "Canada"),
   ("new zealand", "New Zealand"),
   ("patagonia", "Argentina/Chile"),
   ("chile", "Chile"),
   ("bolivia", "Bolivia"),
   ("peru", "Peru"),
   ("greece", "Greece"),
   ("turkey", "Turkey"),
   ("slovenia", "Slovenia"),
   ("croatia", "Croatia"),
   ("scotland", "Scotland"),
   ("japan", "Japan"),
   ("china", "China"),
   ("vietnam", "Vietnam"),
   ("thailand", "Thailand"),
   ("indonesia", "Indonesia"),
   ("australia", "Australia"),
   ("usa", "United States"),
   ("united states", "United States"),
   ("california", "United States"),
   ("arizona", "United States"),
   ("utah", "United States"),
   ("colorado", "United States"),
   ("montana", "United States"),
   ("oregon", "United States"),
   ("washington", "United States")]

/-- One `for keyword, value in table.items(): if keyword in text: ...`
scan from `extract_location_from_text`: first matching keyword wins. -/
def scanTable : List (String × String) → String → Option String
  | [], _ => none
  | (kw, val) :: rest, txt =>
    if strIn kw txt then some val else scanTable rest txt

/-- `extract_location_from_text` of `ingest.py`.  The input is the
optional description (`None` or a string); `if not text` catches both
`None` and the empty string.  On a landmark hit the country table is
scanned for the accompanying country; otherwise the country table is
scanned alone. -/
def extract_location_from_text (text : Option String) :
    Option String × Option String :=
  match text with
  | none => (none, none)
  | some t =>
    if t = "" then (none, none)
    else
      match scanTable landmarks t.toLower with
      | some loc => (some loc, scanTable countries t.toLower)
      | none =>
        match scanTable countries t.toLower with
        | some c => (none, some c)
        | none => (none, none)

/-- The extraction algorithm exactly as section 4.1 of the
specification words it, with the first-match scans written via
`List.find?`: lower-case the text, take the first landmark whose
keyword occurs as a substring as the location name together with the
first matching country keyword; with no landmark hit return the first
matching country alone; with no match at all (or an empty or absent
text) return (None, None). -/
def extract_location_spec (text : Option String) :
    Option String × Option String :=
  match text with
  | none => (none, none)
  | some t =>
    if t = "" then (none, none)
    else
      match (landmarks.find? fun p => strIn p.1 t.toLower).map Prod.snd with
      | some loc =>
        (some loc,
         (countries.find? fun p => strIn p.1 t.toLower).map Prod.snd)
      | none =>
        (none, (countries.find? fun p => strIn p.1 t.toLower).map Prod.snd)

/-- A table scan returns the value of the first entry whose keyword
occurs in the text. -/
theorem scanTable_eq_find (tbl : List (String × String)) (txt : String) :
    scanTable tbl txt = (tbl.find? fun p => strIn p.1 txt).map Prod.snd := by
  induction tbl with
  | nil => rfl
  | cons p rest ih =>
    obtain ⟨kw, val⟩ := p
    by_cases h : strIn kw txt
    · rw [scanTable, if_pos h, List.find?_cons_of_pos _ (by simpa using h)]
      rfl
    · rw [scanTable, if_neg h, List.find?_cons_of_neg _ (by simpa using h),
        ih]

/-- C3: the location extraction of the code coincides, on every input,
with the ordered-precedence algorithm of the specification: lower-cased
substring scan of the landmark table first (its first hit becoming the
location name, with the first country-table hit as its country), the
country table alone otherwise, (None, None) when nothing matches or
the text is empty or absent. -/
theorem C3_extract_location_matches_spec (text : Option String) :
    extract_location_from_text text = extract_location_spec text := by
  cases text with
  | none => rfl
  | some t =>
    by_cases h : t = ""
    · simp [extract_location_from_text, extract_location_spec, h]
    · simp only [extract_location_from_text, extract_location_spec]
      rw [if_neg h, if_neg h, scanTable_eq_find, scanTable_eq_find]
      cases (landmarks.find? fun p => strIn p.1 t.toLower).map Prod.snd with
      | some loc => rfl
      | none =>
        cases (countries.find? fun p => strIn p.1 t.toLower).map Prod.snd <;>
          rfl

/-- Caption construction of `get_random_image` in `api.py`: start from
`None`; "location, country" when both are truthy, else the country when
truthy, else the location name when truthy. -/
def build_caption (location_name country : Option String) :
    Option String :=
  if (optStr location_name).truthy && (optStr country).truthy then
    some (location_name.getD "" ++ ", " ++ country.getD "")
  else if (optStr country).truthy then country
  else if (optStr location_name).truthy then location_name
  else none

/-- Caption construction of `get_random_with_location` in `api.py`:
"location, country" when both truthy, else the country when truthy,
else the location-name value as is. -/
def build_caption_loc (location_name country : Option String) :
    Option String :=
  if (optStr location_name).truthy && (optStr country).truthy then
    some (location_name.getD "" ++ ", " ++ country.getD "")
  else if (optStr country).truthy then country
  else location_name

/-- C9: for served records (whose location_name and country columns are
NULL or nonempty — the pipeline never stores an empty string in them),
both endpoints build the caption as "location_name, country" when both
fields are present, as the single present value when exactly one is
present, and as absent/null when neither is present. -/
theorem C9_caption_construction (l c : Option String)
    (hl : ∀ s, l = some s → s ≠ "") (hc : ∀ s, c = some s → s ≠ "") :
    (∀ ls cs, l = some ls → c = some cs →
      build_caption l c = some (ls ++ ", " ++ cs) ∧
      build_caption_loc l c = some (ls ++ ", " ++ cs)) ∧
    (∀ ls, l = some ls → c = none →
      build_caption l c = some ls ∧ build_caption_loc l c = some ls) ∧
    (∀ cs, c = some cs → l = none →
      build_caption l c = some cs ∧ build_caption_loc l c = some cs) ∧
    (l = none → c = none →
      build_caption l c = none ∧ build_caption_loc l c = none) := by
  refine ⟨?_, ?_, ?_, ?_⟩
  · intro ls cs hls hcs
    have h1 : ls ≠ "" := hl ls hls
    have h2 : cs ≠ "" := hc cs hcs
    constructor <;>
      simp [build_caption, build_caption_loc, hls, hcs, optStr,
        PyVal.truthy, h1, h2]
  · intro ls hls hcn
    have h1 : ls ≠ "" := hl ls hls
    constructor <;>
      simp [build_caption, build_caption_loc, hls, hcn, optStr,
        PyVal.truthy, h1]
  · intro cs hcs hln
    have h2 : cs ≠ "" := hc cs hcs
    constructor <;>
      simp [build_caption, build_caption_loc, hcs, hln, optStr,
        PyVal.truthy, h2]
  · intro hln hcn
    constructor <;>
      simp [build_caption, build_caption_loc, hln, hcn, optStr,
        PyVal.truthy]

/-- Witness for C9 at the concrete examples of the specification:
(Banff National Park, Canada) and country-only Iceland. -/
theorem C9_caption_construction_witness :
    (build_caption (some "Banff National Park") (some "Canada") =
        some "Banff National Park, Canada" ∧
      build_caption_loc (some "Banff National Park") (some "Canada") =
        some "Banff National Park, Canada") ∧
    (build_caption none (some "Iceland") = some "Iceland" ∧
      build_caption_loc none (some "Iceland") = some "Iceland") ∧
    (build_caption none none = none ∧
      build_caption_loc none none = none) := by
  have hBanff := C9_caption_construction
    (some "Banff National Park") (some "Canada")
    (fun s hs => by simp at hs; subst hs; decide)
    (fun s hs => by simp at hs; subst hs; decide)
  have hIce := C9_caption_construction none (some "Iceland")
    (fun s hs => by simp at hs)
    (fun s hs => by simp at hs; subst hs; decide)
  have hNone := C9_caption_construction none none
    (fun s hs => by simp at hs) (fun s hs => by simp at hs)
  refine ⟨?_, ?_, hNone.2.2.2 rfl rfl⟩
  · have := hBanff.1 "Banff National Park" "Canada" rfl rfl
    simpa using this
  · exact hIce.2.2.1 "Iceland" rfl rfl
